import Mathlib

/-!
Verification of the task-orchestration core of the `agents_demo` repository
against its natural-language specification.

The development shallowly embeds the Python sources:
  * `src/agents_test1/core/coordinator.py` (Task, TaskRegistry, TaskManager,
    Coordinator) and `src/agents_test1/core/base.py` (AgentRegistry);
  * `src/agents_test3/business_analysis/agents/coordinator_agent.py`
    (CoordinatorAgent) and its base class.

Python dicts are modelled as association lists with first-key lookup and
in-place replacement (mirroring CPython insertion-order semantics);
`datetime.now()` is modelled by an explicit `now : Nat` parameter supplied
at each call; `uuid.uuid4()` by explicitly supplied fresh identifiers;
recursion that walks the parent chain carries explicit fuel.  Raised
exceptions (calls of undefined attributes) are modelled with `Except`.
-/

namespace AgentsDemo

/-- Python runtime values, as far as the orchestration code inspects them:
`null` is Python `None`; `dict` keeps insertion order like a CPython dict. -/
inductive Val where
  | null : Val
  | str : String → Val
  | int : Int → Val
  | list : List Val → Val
  | dict : List (String × Val) → Val

/-- Lookup in a string-keyed association list (Python `d.get(k)` /
`d[k]` on the unique-keys lists our operations maintain). -/
def aget {β : Type} : List (String × β) → String → Option β
  | [], _ => none
  | p :: rest, k => if p.1 = k then some p.2 else aget rest k

/-- Update in a string-keyed association list (Python `d[k] = v`: replace
in place when the key is present, append otherwise). -/
def aset {β : Type} : List (String × β) → String → β → List (String × β)
  | [], k, v => [(k, v)]
  | p :: rest, k, v => if p.1 = k then (k, v) :: rest else p :: aset rest k v

/-- Task record, mirroring `Task.__init__` in
`src/agents_test1/core/coordinator.py`.  `result` is `Val.null` while unset
(Python `self.result = None`); timestamps are abstract instants. -/
structure Task where
  task_id : String
  task_type : String
  params : Val
  priority : Int
  status : String
  result : Val
  created_at : Nat
  started_at : Option Nat
  completed_at : Option Nat
  assigned_agent : Option String
  parent_task_id : Option String
  subtasks : List String

/-- Freshly constructed task (`Task.__init__`): status `"pending"`, no
result, no assignment, no parent, no subtasks. -/
def Task.new (task_id task_type : String) (params : Val) (priority : Int)
    (now : Nat) : Task :=
  { task_id := task_id, task_type := task_type, params := params,
    priority := priority, status := "pending", result := Val.null,
    created_at := now, started_at := none, completed_at := none,
    assigned_agent := none, parent_task_id := none, subtasks := [] }

/-- State of the `TaskRegistry` singleton: its `tasks` dict. -/
abbrev TaskReg : Type := List (String × Task)

/-- Registered agent, as far as `TaskManager.assign_task` inspects it
(`src/agents_test1/core/base.py`, class `Agent`). -/
structure AgentRec where
  agent_id : String
  agent_type : String
deriving DecidableEq

/-- State of the `AgentRegistry` singleton: its `agents` dict, in
registration (insertion) order. -/
abbrev AgentReg : Type := List (String × AgentRec)

/-- Embedding of `TaskRegistry.get_tasks_by_agent`: all registered tasks
whose `assigned_agent` equals the given agent id, regardless of status. -/
def get_tasks_by_agent (reg : TaskReg) (agent_id : String) : List Task :=
  (reg.map Prod.snd).filter (fun t => decide (t.assigned_agent = some agent_id))

/-- Embedding of `AgentRegistry.get_agents_by_type`: registered agents of
the given type, in registration order. -/
def get_agents_by_type (areg : AgentReg) (agent_type : String) : List AgentRec :=
  (areg.map Prod.snd).filter (fun a => decide (a.agent_type = agent_type))

/-- Embedding of `TaskManager.create_task` with the fresh id passed
explicitly (the source draws it from `uuid.uuid4()`). -/
def create_task (reg : TaskReg) (task_id task_type : String) (params : Val)
    (priority : Int) (now : Nat) : TaskReg :=
  aset reg task_id (Task.new task_id task_type params priority now)

/-- Subtask specification consumed by `TaskManager.decompose_task`
(the dicts in `subtask_specs`). -/
structure SubtaskSpec where
  task_type : String
  params : Val

/-- Loop body of `TaskManager.decompose_task`: create the subtask at the
parent's priority, point it at the parent, and append its id to the
parent's `subtasks` list.  In the source the parent is a Python object
aliased by the registry entry, so both mutations land in the registry. -/
def decompose_step (parent_id : String) (now : Nat) (reg : TaskReg)
    (p : String × SubtaskSpec) : TaskReg :=
  match aget reg parent_id with
  | none => reg
  | some parent =>
    let sub : Task :=
      { Task.new p.1 p.2.task_type p.2.params parent.priority now with
        parent_task_id := some parent_id }
    let reg1 := aset reg p.1 sub
    match aget reg1 parent_id with
    | none => reg1
    | some parent1 =>
      aset reg1 parent_id { parent1 with subtasks := parent1.subtasks ++ [p.1] }

/-- Embedding of `TaskManager.decompose_task`, the fresh subtask ids
supplied alongside their specs.  After the loop, a still-`"pending"` parent
becomes `"decomposed"`; the source imposes no other guard. -/
def decompose_task (reg : TaskReg) (parent_id : String)
    (specs : List (String × SubtaskSpec)) (now : Nat) : TaskReg :=
  let reg1 := specs.foldl (decompose_step parent_id now) reg
  match aget reg1 parent_id with
  | none => reg1
  | some parent =>
    if parent.status = "pending" then
      aset reg1 parent_id { parent with status := "decomposed" }
    else reg1

/-- Subtask-result collection loop of
`TaskManager._check_parent_task_completion`: walk the parent's `subtasks`
ids; a missing or non-`"completed"` subtask aborts (the `all_completed =
False; break` path, returning `none`); otherwise accumulate
`subtask_results[subtask.task_type] = subtask.result` in order. -/
def collectResults (reg : TaskReg) (acc : List (String × Val)) :
    List String → Option (List (String × Val))
  | [] => some acc
  | id :: rest =>
    match aget reg id with
    | none => none
    | some sub =>
      if sub.status = "completed" then
        collectResults reg (aset acc sub.task_type sub.result) rest
      else none

/-- Embedding of `TaskManager._check_parent_task_completion`.  When the
parent exists, has subtasks, and every subtask is `"completed"`, the parent
is marked `"completed"` with the aggregated result dict and the check
recurses up the parent chain; otherwise the registry is unchanged.  The
`fuel` bounds the parent-chain recursion of the source. -/
def check_parent_task_completion : Nat → TaskReg → String → Nat → TaskReg
  | 0, reg, _, _ => reg
  | fuel + 1, reg, parent_id, now =>
    match aget reg parent_id with
    | none => reg
    | some parent =>
      if parent.subtasks = [] then reg
      else
        match collectResults reg [] parent.subtasks with
        | none => reg
        | some results =>
          let reg1 := aset reg parent_id
            { parent with
              status := "completed"
              completed_at := some now
              result := Val.dict results }
          match parent.parent_task_id with
          | none => reg1
          | some gp => check_parent_task_completion fuel reg1 gp now

/-- Embedding of `TaskManager.update_task_status`: an unknown id returns
`false`; otherwise the status is overwritten unconditionally, and a
terminal status additionally stamps `completed_at`, stores the result and
triggers the parent-completion check. -/
def update_task_status (fuel : Nat) (reg : TaskReg) (task_id status : String)
    (result : Val) (now : Nat) : Bool × TaskReg :=
  match aget reg task_id with
  | none => (false, reg)
  | some task =>
    if status = "completed" ∨ status = "failed" then
      let reg1 := aset reg task_id
        { task with
          status := status
          completed_at := some now
          result := result }
      match task.parent_task_id with
      | none => (true, reg1)
      | some pid => (true, check_parent_task_completion fuel reg1 pid now)
    else
      (true, aset reg task_id { task with status := status })

/-- Task-type to agent-type routing table of `TaskManager.__init__`. -/
def task_type_to_agent_type : List (String × String) :=
  [("market_analysis", "market_trend_analysis_agent"),
   ("selling_point_analysis", "selling_point_analysis_agent"),
   ("competitor_analysis", "competitor_analysis_agent"),
   ("price_analysis", "price_analysis_agent"),
   ("comprehensive_analysis", "comprehensive_analysis_agent")]

/-- Load metric used by `TaskManager.assign_task`: the number of tasks in
the registry assigned to the agent, counting every status. -/
def agentLoad (reg : TaskReg) (agent_id : String) : Nat :=
  (get_tasks_by_agent reg agent_id).length

/-- Embedding of Python `min(agents, key = lambda a colon load a)`: the
first agent in list order attaining the minimal load. -/
def minByLoad (reg : TaskReg) : List AgentRec → Option AgentRec
  | [] => none
  | a :: rest =>
    match minByLoad reg rest with
    | none => some a
    | some b =>
      if agentLoad reg a.agent_id ≤ agentLoad reg b.agent_id then some a
      else some b

/-- Embedding of `TaskManager.assign_task`.  In the source the task is
passed as a registered Python object, so it is keyed here by id; every
observable mutation goes through the registry entry.  A non-`"pending"`
task, an unroutable task type, an empty candidate list or an unknown agent
id each return `false` with the registry unchanged; the source records no
failure status in any of those cases. -/
def assign_task (areg : AgentReg) (reg : TaskReg) (task_id : String)
    (agent_choice : Option String) (now : Nat) : Bool × TaskReg :=
  match aget reg task_id with
  | none => (false, reg)
  | some task =>
    if task.status = "pending" then
      let chosen : Option String :=
        match agent_choice with
        | some aid => some aid
        | none =>
          match aget task_type_to_agent_type task.task_type with
          | none => none
          | some agent_type =>
            match minByLoad reg (get_agents_by_type areg agent_type) with
            | none => none
            | some a => some a.agent_id
      match chosen with
      | none => (false, reg)
      | some aid =>
        match aget areg aid with
        | none => (false, reg)
        | some _ =>
          (true, aset reg task_id
            { task with
              assigned_agent := some aid
              status := "assigned"
              started_at := some now })
    else (false, reg)

/-- Message of `src/agents_test1/core/base.py`. -/
structure Msg where
  sender : String
  receiver : String
  content : Val
  msg_type : String

/-- Status extraction of the `"task_result"` arm:
Python `content.get(status-key, completed-default)`.  Every producer in
the source sends a string status. -/
def msgStatus (c : List (String × Val)) : String :=
  match aget c "status" with
  | some (Val.str s) => s
  | _ => "completed"

/-- Result extraction of the `"task_result"` arm:
Python `content.get(result-key)`, `None` when absent. -/
def msgResult (c : List (String × Val)) : Val :=
  (aget c "result").getD Val.null

/-- Embedding of the `"task_result"` arm of `Coordinator.process_message`
(no callback registered for that type).  Returns the updated registry and
the optional outbound message.  A non-dict content or missing `"task_id"`
returns `none`; a non-string `"task_id"` can match no registry key, so the
source falls through `update_task_status = False` and `get_task = None` to
return `none`, collapsed here into the same branch. -/
def coordinator_handle_task_result (fuel : Nat) (self_id : String)
    (reg : TaskReg) (message : Msg) (now : Nat) : TaskReg × Option Msg :=
  match message.content with
  | Val.dict c =>
    match aget c "task_id" with
    | some (Val.str task_id) =>
      let status : String := msgStatus c
      let result : Val := msgResult c
      let reg1 := (update_task_status fuel reg task_id status result now).2
      match aget reg1 task_id with
      | none => (reg1, none)
      | some task =>
        match task.parent_task_id with
        | some _ => (reg1, none)
        | none =>
          (reg1, some
            { sender := self_id, receiver := message.sender,
              content := Val.dict
                [("task_id", Val.str task_id), ("status", Val.str status),
                 ("result", result)],
              msg_type := "task_completed" })
    | _ => (reg, none)
  | _ => (reg, none)

/-- Counting of a worker's active tasks following the specification's words
(tasks currently in the `Assigned` or `Running` states).  Used only to
compare the source's load metric `agentLoad` against the spec's claim. -/
def specActiveLoad (reg : TaskReg) (agent_id : String) : Nat :=
  ((reg.map Prod.snd).filter (fun t =>
    decide (t.assigned_agent = some agent_id ∧
      (t.status = "assigned" ∨ t.status = "running")))).length

/-- Message of `src/agents_test3/business_analysis/models/message.py`, the
fields the coordinator reads.  Outbound messages drawn with a fresh
`uuid.uuid4()` id in `BaseAgent.send_message` carry the placeholder id
`""` here; no embedded operation inspects an outbound id. -/
structure T3Msg where
  message_id : String
  from_agent_id : String
  to_agent_id : String
  content : Val
  message_type : String
  reference_id : Option String

/-- Task dict produced by `CoordinatorAgent._decompose_analysis_task`:
keys `task_id`, `task_type`, `parameters`, optional `depends_on`,
`required_expertise`. -/
structure T3Task where
  task_id : String
  task_type : String
  parameters : Val
  depends_on : Option (List String)
  required_expertise : String

/-- Rendering of a `T3Task` back into the Python dict shape it stands for,
used when the task is embedded in a `task_assignment` message. -/
def T3Task.toVal (t : T3Task) : Val :=
  Val.dict
    ([("task_id", Val.str t.task_id), ("task_type", Val.str t.task_type),
      ("parameters", t.parameters)] ++
     (match t.depends_on with
      | some ds => [("depends_on", Val.list (ds.map Val.str))]
      | none => []) ++
     [("required_expertise", Val.str t.required_expertise)])

/-- Entry of `CoordinatorAgent.active_tasks`.  Keys absent from the Python
dict (`error`, `assigned_agent` on some paths) are `none`. -/
structure ActiveTask where
  task : T3Task
  status : String
  analysis_id : String
  error : Option String
  assigned_agent : Option String

/-- State of a `CoordinatorAgent` instance (fields of `__init__` plus the
inherited `memory`, plus the trace of messages it sent). -/
structure C3State where
  agent_id : String
  available_agents : List (String × Val)
  active_tasks : List (String × ActiveTask)
  task_results : List (String × Val)
  current_analysis_id : Option String
  memory : List (String × Val)
  outbox : List T3Msg

/-- Python `v.get(k)` on a value expected to be a dict. -/
def Val.dictGet : Val → String → Option Val
  | Val.dict d, k => aget d k
  | _, _ => none

/-- Availability test of `CoordinatorAgent._find_suitable_agent`:
Python `agent_info.get(status-key, available) == available`. -/
def agent_info_available (info : Val) : Bool :=
  match Val.dictGet info "status" with
  | none => true
  | some (Val.str s) => s = "available"
  | some _ => false

/-- Expertise test of `CoordinatorAgent._find_suitable_agent`:
Python `agent_info.get(expertise-key) == required_expertise`. -/
def agent_info_expertise (info : Val) (required : String) : Bool :=
  match Val.dictGet info "expertise" with
  | some (Val.str s) => s = required
  | _ => false

/-- Embedding of `CoordinatorAgent._find_suitable_agent`: first registered
agent (dict insertion order) whose expertise matches and whose status
defaults to or equals `"available"`. -/
def find_suitable_agent : List (String × Val) → String → Option String
  | [], _ => none
  | (aid, info) :: rest, required =>
    if agent_info_expertise info required && agent_info_available info then
      some aid
    else find_suitable_agent rest required

/-- Embedding of `CoordinatorAgent._check_dependencies`: every dependency
id must appear in `task_results` with a dict carrying status
`"completed"`.  (Nothing in the source ever writes `task_results` — its
only intended writer, `_process_task_result`, is undefined — so entries
are dicts in every reachable state.) -/
def check_dependencies (task_results : List (String × Val)) :
    List String → Bool
  | [] => true
  | d :: rest =>
    match aget task_results d with
    | some r =>
      match Val.dictGet r "status" with
      | some (Val.str s) =>
        if s = "completed" then check_dependencies task_results rest
        else false
      | _ => false
    | none => false

/-- Embedding of `CoordinatorAgent._assign_task`: unsatisfied declared
dependencies park the task as `"waiting"`; no suitable agent marks it
`"failed"` with the literal error of the source; otherwise the task is
marked `"assigned"` and a `task_assignment` message is sent. -/
def coordinator_assign_task (st : C3State) (task : T3Task)
    (analysis_id : String) : C3State :=
  let depsUnsat : Bool :=
    match task.depends_on with
    | some ds => ! check_dependencies st.task_results ds
    | none => false
  if depsUnsat then
    { st with
      active_tasks := aset st.active_tasks task.task_id
        { task := task, status := "waiting", analysis_id := analysis_id,
          error := none, assigned_agent := none } }
  else
    match find_suitable_agent st.available_agents task.required_expertise with
    | none =>
      { st with
        active_tasks := aset st.active_tasks task.task_id
          { task := task, status := "failed", analysis_id := analysis_id,
            error := some "No suitable agent found", assigned_agent := none } }
    | some aid =>
      { st with
        active_tasks := aset st.active_tasks task.task_id
          { task := task, status := "assigned", analysis_id := analysis_id,
            error := none, assigned_agent := some aid }
        outbox := st.outbox ++
          [{ message_id := "", from_agent_id := st.agent_id,
             to_agent_id := aid,
             content := Val.dict
               [("task", T3Task.toVal task),
                ("analysis_id", Val.str analysis_id)],
             message_type := "task_assignment",
             reference_id := some task.task_id }] }

/-- Embedding of `CoordinatorAgent._decompose_analysis_task`: the two
hard-coded three-task pipelines, selected on the analysis type; any other
request decomposes to no tasks. -/
def decompose_analysis_task (analysis_request : Val) : List T3Task :=
  let category := (Val.dictGet analysis_request "category").getD Val.null
  let time_range := (Val.dictGet analysis_request "time_range").getD Val.null
  match Val.dictGet analysis_request "analysis_type" with
  | some (Val.str s) =>
    if s = "市场趋势" then
      [{ task_id := "data_collection_1", task_type := "data_collection",
         parameters := Val.dict
           [("category", category), ("time_range", time_range),
            ("data_types", Val.list [Val.str "market_data", Val.str "sales_data"])],
         depends_on := none, required_expertise := "market_data" },
       { task_id := "data_analysis_2", task_type := "data_analysis",
         parameters := Val.dict
           [("analysis_methods",
             Val.list [Val.str "trend_analysis", Val.str "seasonality_analysis"]),
            ("dimensions",
             Val.list [Val.str "sales", Val.str "market_share", Val.str "growth_rate"])],
         depends_on := some ["data_collection_1"],
         required_expertise := "market_analysis" },
       { task_id := "insight_generation_3", task_type := "insight_generation",
         parameters := Val.dict
           [("insight_types",
             Val.list [Val.str "trend_insights", Val.str "opportunity_insights",
               Val.str "risk_insights"]),
            ("max_insights", Val.int 5)],
         depends_on := some ["data_analysis_2"],
         required_expertise := "business_strategy" }]
    else if s = "竞品分析" then
      [{ task_id := "data_collection_1", task_type := "data_collection",
         parameters := Val.dict
           [("category", category), ("time_range", time_range),
            ("data_types", Val.list [Val.str "competitor_data", Val.str "product_data"])],
         depends_on := none, required_expertise := "competitor_data" },
       { task_id := "data_analysis_2", task_type := "data_analysis",
         parameters := Val.dict
           [("analysis_methods",
             Val.list [Val.str "comparative_analysis", Val.str "gap_analysis"]),
            ("dimensions",
             Val.list [Val.str "price", Val.str "features", Val.str "market_position"])],
         depends_on := some ["data_collection_1"],
         required_expertise := "competitor_analysis" },
       { task_id := "insight_generation_3", task_type := "insight_generation",
         parameters := Val.dict
           [("insight_types",
             Val.list [Val.str "competitive_advantage", Val.str "threat_insights",
               Val.str "opportunity_insights"]),
            ("max_insights", Val.int 5)],
         depends_on := some ["data_analysis_2"],
         required_expertise := "business_strategy" }]
    else []
  | _ => []

/-- Embedding of `CoordinatorAgent._start_analysis_workflow`: record the
request under `analysis_` plus the message id, decompose, record the task
ids, then attempt assignment of every task in order. -/
def start_analysis_workflow (st : C3State) (message : T3Msg) : C3State :=
  let analysis_id := message.message_id
  let key := "analysis_" ++ analysis_id
  let st1 := { st with current_analysis_id := some analysis_id }
  let st2 := { st1 with
    memory := aset st1.memory key
      (Val.dict
        [("request", message.content),
         ("requester_id", Val.str message.from_agent_id),
         ("status", Val.str "in_progress"), ("tasks", Val.list [])]) }
  let tasks := decompose_analysis_task message.content
  let st3 :=
    match aget st2.memory key with
    | some (Val.dict info) =>
      { st2 with
        memory := aset st2.memory key
          (Val.dict (aset info "tasks"
            (Val.list (tasks.map (fun t => Val.str t.task_id))))) }
    | _ => st2
  tasks.foldl (fun s t => coordinator_assign_task s t analysis_id) st3

/-- Error raised when `CoordinatorAgent.process_message` reaches the
`task_result` branch: the method it calls exists nowhere in the class or
its base. -/
def missing_process_task_result : String :=
  "AttributeError: CoordinatorAgent has no attribute _process_task_result"

/-- Error raised when `CoordinatorAgent.act` calls the undefined
`_is_analysis_complete`. -/
def missing_is_analysis_complete : String :=
  "AttributeError: CoordinatorAgent has no attribute _is_analysis_complete"

/-- Embedding of `CoordinatorAgent.process_message`.  The `task_result`
branch calls `self._process_task_result`, defined nowhere in
`CoordinatorAgent` nor in `BaseAgent`, so in Python it raises
`AttributeError`; the embedding surfaces that as `Except.error`. -/
def coordinator_process_message (st : C3State) (message : T3Msg) :
    Except String C3State :=
  if message.message_type = "analysis_request" then
    Except.ok (start_analysis_workflow st message)
  else if message.message_type = "task_result" then
    Except.error missing_process_task_result
  else if message.message_type = "agent_registration" then
    let st1 := { st with
      available_agents :=
        aset st.available_agents message.from_agent_id message.content }
    Except.ok
      { st1 with
        outbox := st1.outbox ++
          [{ message_id := "", from_agent_id := st.agent_id,
             to_agent_id := message.from_agent_id,
             content := Val.dict [("status", Val.str "registered")],
             message_type := "registration_confirmation",
             reference_id := some message.message_id }] }
  else Except.ok st

/-- Embedding of `CoordinatorAgent.act`: a truthy (non-`None`, non-empty)
`current_analysis_id` makes it call the undefined
`_is_analysis_complete`, raising `AttributeError`. -/
def coordinator_act (st : C3State) : Except String C3State :=
  match st.current_analysis_id with
  | some aid =>
    if aid = "" then Except.ok st
    else Except.error missing_is_analysis_complete
  | none => Except.ok st

/-- Process-wide Python class state backing the singleton pattern of
`TaskRegistry.__new__` and `AgentRegistry.__new__`: the arena of instances
ever allocated and the class attribute `_instance` as an optional index
into it. -/
structure PyProcess where
  task_registries : List TaskReg
  task_instance : Option Nat
  agent_registries : List AgentReg
  agent_instance : Option Nat

/-- Fresh Python process: no registry instance allocated yet. -/
def pyProcessInit : PyProcess :=
  { task_registries := [], task_instance := none,
    agent_registries := [], agent_instance := none }

/-- Embedding of `TaskRegistry.__new__`: allocate an empty instance only
when `_instance` is unset, then always return `_instance`. -/
def taskRegistry_new (p : PyProcess) : PyProcess × Nat :=
  match p.task_instance with
  | none =>
    ({ p with
       task_registries := p.task_registries ++ [([] : TaskReg)]
       task_instance := some p.task_registries.length },
     p.task_registries.length)
  | some i => (p, i)

/-- Embedding of `AgentRegistry.__new__`, same singleton discipline. -/
def agentRegistry_new (p : PyProcess) : PyProcess × Nat :=
  match p.agent_instance with
  | none =>
    ({ p with
       agent_registries := p.agent_registries ++ [([] : AgentReg)]
       agent_instance := some p.agent_registries.length },
     p.agent_registries.length)
  | some i => (p, i)

/-- References held by a `TaskManager` (or a `Coordinator`) after
`__init__`: the identities of the registry objects the constructor calls
returned. -/
structure TaskManagerHandle where
  task_registry : Nat
  agent_registry : Nat

/-- Embedding of `TaskManager.__init__`: construct (hence fetch) both
singleton registries. -/
def taskManager_init (p : PyProcess) : PyProcess × TaskManagerHandle :=
  let tr := taskRegistry_new p
  let ar := agentRegistry_new tr.1
  (ar.1, { task_registry := tr.2, agent_registry := ar.2 })

/-- Registering a task through a manager handle: `TaskRegistry.register`
applied to the instance the handle references. -/
def handle_register_task (p : PyProcess) (h : TaskManagerHandle) (t : Task) :
    PyProcess :=
  { p with
    task_registries := p.task_registries.set h.task_registry
      (aset (p.task_registries.getD h.task_registry []) t.task_id t) }

/-- Reading a task through a manager handle: `TaskRegistry.get_task` on the
instance the handle references. -/
def handle_get_task (p : PyProcess) (h : TaskManagerHandle) (id : String) :
    Option Task :=
  aget (p.task_registries.getD h.task_registry []) id

/-- Fixture helper: a task record with the orchestration-relevant fields
set and neutral bookkeeping fields. -/
def mkTask (id ty st : String) (res : Val) (agent : Option String)
    (parent : Option String) (subs : List String) : Task :=
  { task_id := id, task_type := ty, params := Val.null, priority := 1,
    status := st, result := res, created_at := 0, started_at := none,
    completed_at := none, assigned_agent := agent, parent_task_id := parent,
    subtasks := subs }

/-- Predicate: the registry entry for `id` is missing or not
`"completed"`, i.e. it makes the `all_completed` loop of
`_check_parent_task_completion` bail out when it reaches `id`. -/
def subtaskIncomplete (reg : TaskReg) (id : String) : Prop :=
  match aget reg id with
  | none => True
  | some s => s.status ≠ "completed"

/-- Task types of the resolvable ids in a subtask list, in order; used to
state when the aggregated result dict maps each child type injectively. -/
def childTypes (reg : TaskReg) (ids : List String) : List String :=
  ids.filterMap (fun i => (aget reg i).map Task.task_type)

/-- Fixture: completed child `a` of parent `p` (claim C1). -/
def c1a : Task := mkTask "a" "ta" "completed" (Val.str "ra") none (some "p") []

/-- Fixture: completed child `b` of parent `p` (claim C1). -/
def c1b : Task := mkTask "b" "tb" "completed" (Val.str "rb") none (some "p") []

/-- Fixture: decomposed parent of `a` and `b` (claim C1). -/
def c1p : Task :=
  mkTask "p" "comprehensive_analysis" "decomposed" Val.null none none ["a", "b"]

/-- Fixture registry for claim C1: decomposed parent, both children done. -/
def c1reg : TaskReg := [("p", c1p), ("a", c1a), ("b", c1b)]

/-- Aggregated result dict expected for `c1reg`. -/
def c1results : List (String × Val) := [("ta", Val.str "ra"), ("tb", Val.str "rb")]

/-- Fixture registry for claim C2: decomposed parent `p`, child `a`
completed, child `b` still assigned. -/
def c2reg : TaskReg :=
  [("p", mkTask "p" "comprehensive_analysis" "decomposed" Val.null none none ["a", "b"]),
   ("a", mkTask "a" "ta" "completed" (Val.str "ra") none (some "p") []),
   ("b", mkTask "b" "tb" "assigned" Val.null (some "w1") (some "p") [])]

/-- Fixture registry for claim C3: a single already-completed task. -/
def c3reg : TaskReg :=
  [("t", mkTask "t" "market_analysis" "completed" (Val.str "r") (some "w") none [])]

/-- Fixture worker registered first (claim C5). -/
def c5agent1 : AgentRec := { agent_id := "agent1", agent_type := "market_trend_analysis_agent" }

/-- Fixture worker registered second (claim C5). -/
def c5agent2 : AgentRec := { agent_id := "agent2", agent_type := "market_trend_analysis_agent" }

/-- Fixture agent registry for claim C5, both workers capable. -/
def c5areg : AgentReg := [("agent1", c5agent1), ("agent2", c5agent2)]

/-- Fixture task registry for the C5 counterexample: `agent1` holds two
terminal tasks, `agent2` one active task, `t4` awaits assignment. -/
def c5reg : TaskReg :=
  [("t1", mkTask "t1" "market_analysis" "completed" Val.null (some "agent1") none []),
   ("t2", mkTask "t2" "market_analysis" "completed" Val.null (some "agent1") none []),
   ("t3", mkTask "t3" "market_analysis" "assigned" Val.null (some "agent2") none []),
   ("t4", mkTask "t4" "market_analysis" "pending" Val.null none none [])]

/-- Fixture task registry for the C5 witness: `agent1` holds three tasks,
`agent2` none, `t4` awaits assignment. -/
def c5wreg : TaskReg :=
  [("t1", mkTask "t1" "market_analysis" "assigned" Val.null (some "agent1") none []),
   ("t2", mkTask "t2" "market_analysis" "assigned" Val.null (some "agent1") none []),
   ("t3", mkTask "t3" "market_analysis" "running" Val.null (some "agent1") none []),
   ("t4", mkTask "t4" "market_analysis" "pending" Val.null none none [])]

/-- Fixture registry for claim C6: one pending task, no agent registered. -/
def c6reg : TaskReg :=
  [("t", mkTask "t" "market_analysis" "pending" Val.null none none [])]

/-- Fixture coordinator state for the C6 witness: no registered agents. -/
def c6st : C3State :=
  { agent_id := "coord", available_agents := [], active_tasks := [],
    task_results := [], current_analysis_id := none, memory := [], outbox := [] }

/-- Fixture task for the C6 witness: no dependencies, expertise nobody has. -/
def c6task : T3Task :=
  { task_id := "k1", task_type := "data_collection", parameters := Val.null,
    depends_on := none, required_expertise := "market_data" }

/-- Fixture registry for claim C7: a single pending parent. -/
def c7reg : TaskReg :=
  [("p", mkTask "p" "comprehensive_analysis" "pending" Val.null none none [])]

/-- Fixture subtask spec for claim C7. -/
def c7spec : SubtaskSpec := { task_type := "market_analysis", params := Val.null }

/-- Fixture registry for claim C8: decomposed root `r`, child `c1` done,
child `c2` still running at a worker. -/
def c8reg : TaskReg :=
  [("r", mkTask "r" "comprehensive_analysis" "decomposed" Val.null none none ["c1", "c2"]),
   ("c1", mkTask "c1" "ta" "completed" (Val.str "ra") none (some "r") []),
   ("c2", mkTask "c2" "tb" "assigned" Val.null (some "w2") (some "r") [])]

/-- Fixture message for claim C8: the worker reports the last child done. -/
def c8msg : Msg :=
  { sender := "worker2", receiver := "coordinator",
    content := Val.dict
      [("task_id", Val.str "c2"), ("status", Val.str "completed"),
       ("result", Val.str "rb")],
    msg_type := "task_result" }

/-- Fixture registry for the C8 witness: a parentless leaf task. -/
def c8wreg : TaskReg :=
  [("t", mkTask "t" "market_analysis" "assigned" Val.null (some "w") none [])]

/-- Fixture message for the C8 witness: result for the parentless task. -/
def c8wmsg : Msg :=
  { sender := "w", receiver := "coordinator",
    content := Val.dict
      [("task_id", Val.str "t"), ("status", Val.str "completed"),
       ("result", Val.str "res")],
    msg_type := "task_result" }

/-- Fixture coordinator state for claim C4. -/
def c4st : C3State :=
  { agent_id := "coord", available_agents := [], active_tasks := [],
    task_results := [], current_analysis_id := none, memory := [], outbox := [] }

/-- Fixture dependent task for claim C4 (the analysis step of the market
trend pipeline, gated on the collection step). -/
def c4task : T3Task :=
  { task_id := "data_analysis_2", task_type := "data_analysis",
    parameters := Val.null, depends_on := some ["data_collection_1"],
    required_expertise := "market_analysis" }

/-- Fixture result message for claim C4: the gating dependency reports
completion. -/
def c4msg : T3Msg :=
  { message_id := "m1", from_agent_id := "expert1", to_agent_id := "coord",
    content := Val.dict
      [("task_id", Val.str "data_collection_1"),
       ("status", Val.str "completed")],
    message_type := "task_result", reference_id := none }

/-- Fixture coordinator state for claim C10, mid-analysis. -/
def c10st : C3State :=
  { agent_id := "coord", available_agents := [], active_tasks := [],
    task_results := [], current_analysis_id := some "m1", memory := [],
    outbox := [] }

/-- Fixture result message for claim C10. -/
def c10msg : T3Msg :=
  { message_id := "m2", from_agent_id := "expert1", to_agent_id := "coord",
    content := Val.dict [("task_id", Val.str "data_collection_1")],
    message_type := "task_result", reference_id := none }

/-- Fixture task for claim C9: registered through one manager, read
through another. -/
def c9t : Task := mkTask "t9" "market_analysis" "pending" Val.null none none []

theorem aget_aset_self {β : Type} (d : List (String × β)) (k : String) (v : β) :
    aget (aset d k v) k = some v := by
  induction d with
  | nil => simp [aget, aset]
  | cons p rest ih =>
    by_cases h : p.1 = k
    · simp [aget, aset, h]
    · simp [aget, aset, h, ih]

theorem aget_aset_ne {β : Type} (d : List (String × β)) (k k' : String) (v : β)
    (h : k' ≠ k) : aget (aset d k v) k' = aget d k' := by
  induction d with
  | nil => simp [aget, aset, Ne.symm h]
  | cons p rest ih =>
    by_cases hp : p.1 = k
    · simp [aget, aset, hp, Ne.symm h]
    · simp [aget, aset, hp, ih]

theorem collectResults_eq_none (reg : TaskReg) (ids : List String)
    (h : ∃ id ∈ ids, subtaskIncomplete reg id) :
    ∀ acc, collectResults reg acc ids = none := by
  induction ids with
  | nil => exact absurd h (by simp)
  | cons id0 rest ih =>
    intro acc
    rcases h with ⟨id, hmem, hbad⟩
    rcases List.mem_cons.mp hmem with heq | hmem'
    · subst heq
      unfold subtaskIncomplete at hbad
      cases hget : aget reg id with
      | none => simp [collectResults, hget]
      | some s =>
        rw [hget] at hbad
        simp [collectResults, hget, hbad]
    · cases hget : aget reg id0 with
      | none => simp [collectResults, hget]
      | some s =>
        by_cases hs : s.status = "completed"
        · simp [collectResults, hget, hs, ih ⟨id, hmem', hbad⟩]
        · simp [collectResults, hget, hs]

theorem check_parent_no_change (fuel : Nat) (reg : TaskReg) (pid : String)
    (now : Nat)
    (h : ∀ parent, aget reg pid = some parent → parent.subtasks ≠ [] →
      collectResults reg [] parent.subtasks = none) :
    check_parent_task_completion fuel reg pid now = reg := by
  cases fuel with
  | zero => rfl
  | succ n =>
    unfold check_parent_task_completion
    cases hget : aget reg pid with
    | none => rfl
    | some parent =>
      by_cases hsub : parent.subtasks = []
      · simp [hsub]
      · simp [hsub, h parent hget hsub]

theorem check_parent_success (fuel : Nat) (reg : TaskReg) (pid : String)
    (now : Nat) (parent : Task) (results : List (String × Val))
    (hp : aget reg pid = some parent) (hne : parent.subtasks ≠ [])
    (hres : collectResults reg [] parent.subtasks = some results)
    (hroot : parent.parent_task_id = none) :
    check_parent_task_completion (fuel + 1) reg pid now =
      aset reg pid
        { parent with
          status := "completed"
          completed_at := some now
          result := Val.dict results } := by
  unfold check_parent_task_completion
  simp [hp, hne, hres, hroot]

theorem collectResults_aset_ne (reg : TaskReg) (pid : String) (v : Task)
    (ids : List String) (hpid : pid ∉ ids) :
    ∀ acc, collectResults (aset reg pid v) acc ids = collectResults reg acc ids := by
  induction ids with
  | nil => intro acc; rfl
  | cons id0 rest ih =>
    intro acc
    have hne : id0 ≠ pid := fun h => hpid (h ▸ List.mem_cons_self id0 rest)
    have hrest : pid ∉ rest := fun h => hpid (List.mem_cons_of_mem id0 h)
    unfold collectResults
    rw [aget_aset_ne reg pid id0 v hne]
    cases aget reg id0 with
    | none => rfl
    | some s =>
      by_cases hs : s.status = "completed"
      · simp [hs, ih hrest]
      · simp [hs]

theorem collectResults_preserves (reg : TaskReg) (ids : List String)
    (ty : String) (hty : ty ∉ childTypes reg ids) :
    ∀ acc res, collectResults reg acc ids = some res → aget res ty = aget acc ty := by
  induction ids with
  | nil =>
    intro acc res h
    unfold collectResults at h
    cases h
    rfl
  | cons id0 rest ih =>
    intro acc res h
    unfold collectResults at h
    cases hget : aget reg id0 with
    | none => rw [hget] at h; cases h
    | some s =>
      rw [hget] at h
      dsimp only at h
      by_cases hs : s.status = "completed"
      · rw [if_pos hs] at h
        have htypes : ty ≠ s.task_type ∧ ty ∉ childTypes reg rest := by
          have : childTypes reg (id0 :: rest) = s.task_type :: childTypes reg rest := by
            simp [childTypes, hget]
          rw [this] at hty
          exact ⟨fun hh => hty (hh ▸ List.mem_cons_self _ _),
            fun hh => hty (List.mem_cons_of_mem _ hh)⟩
        rw [ih htypes.2 _ _ h, aget_aset_ne acc s.task_type ty s.result htypes.1]
      · rw [if_neg hs] at h; cases h

theorem collectResults_maps (reg : TaskReg) (ids : List String)
    (hdist : (childTypes reg ids).Nodup) (id : String) (hid : id ∈ ids)
    (sub : Task) (hsub : aget reg id = some sub) :
    ∀ acc res, collectResults reg acc ids = some res →
      aget res sub.task_type = some sub.result := by
  induction ids with
  | nil => cases hid
  | cons id0 rest ih =>
    intro acc res h
    unfold collectResults at h
    cases hget : aget reg id0 with
    | none => rw [hget] at h; cases h
    | some s =>
      rw [hget] at h
      dsimp only at h
      by_cases hs : s.status = "completed"
      · rw [if_pos hs] at h
        have hct : childTypes reg (id0 :: rest) = s.task_type :: childTypes reg rest := by
          simp [childTypes, hget]
        rw [hct] at hdist
        rcases List.mem_cons.mp hid with heq | hmem
        · subst heq
          have hss : s = sub := by rw [hget] at hsub; exact Option.some.inj hsub
          subst hss
          have hnotin : s.task_type ∉ childTypes reg rest :=
            (List.nodup_cons.mp hdist).1
          rw [collectResults_preserves reg rest s.task_type hnotin _ _ h,
            aget_aset_self]
        · exact ih (List.nodup_cons.mp hdist).2 hmem _ _ h
      · rw [if_neg hs] at h; cases h

theorem minByLoad_cons_isSome (reg : TaskReg) (x : AgentRec)
    (rest : List AgentRec) : (minByLoad reg (x :: rest)).isSome := by
  unfold minByLoad
  cases minByLoad reg rest with
  | none => rfl
  | some b =>
    by_cases h : agentLoad reg x.agent_id ≤ agentLoad reg b.agent_id <;> simp [h]

theorem minByLoad_mem_le (reg : TaskReg) :
    ∀ (l : List AgentRec) (a : AgentRec), minByLoad reg l = some a →
      a ∈ l ∧ ∀ b ∈ l, agentLoad reg a.agent_id ≤ agentLoad reg b.agent_id := by
  intro l
  induction l with
  | nil => intro a h; cases h
  | cons x rest ih =>
    intro a h
    unfold minByLoad at h
    cases hrec : minByLoad reg rest with
    | none =>
      rw [hrec] at h
      dsimp only at h
      cases rest with
      | nil =>
        cases h
        exact ⟨List.mem_cons_self _ _, by simp⟩
      | cons y ys =>
        have := minByLoad_cons_isSome reg y ys
        rw [hrec] at this
        cases this
    | some b =>
      rw [hrec] at h
      dsimp only at h
      have hb := ih b hrec
      by_cases hle : agentLoad reg x.agent_id ≤ agentLoad reg b.agent_id
      · rw [if_pos hle] at h
        cases h
        refine ⟨List.mem_cons_self _ _, ?_⟩
        intro c hc
        rcases List.mem_cons.mp hc with hcx | hcr
        · subst hcx; exact Nat.le_refl _
        · exact Nat.le_trans hle (hb.2 c hcr)
      · rw [if_neg hle] at h
        cases h
        refine ⟨List.mem_cons_of_mem _ hb.1, ?_⟩
        intro c hc
        rcases List.mem_cons.mp hc with hcx | hcr
        · subst hcx; exact Nat.le_of_lt (Nat.lt_of_not_le hle)
        · exact hb.2 c hcr

theorem minByLoad_first (reg : TaskReg) :
    ∀ (l : List AgentRec) (a : AgentRec), minByLoad reg l = some a →
      ∃ l1 l2, l = l1 ++ a :: l2 ∧
        ∀ b ∈ l1, agentLoad reg a.agent_id < agentLoad reg b.agent_id := by
  intro l
  induction l with
  | nil => intro a h; cases h
  | cons x rest ih =>
    intro a h
    unfold minByLoad at h
    cases hrec : minByLoad reg rest with
    | none =>
      rw [hrec] at h
      dsimp only at h
      cases h
      exact ⟨[], rest, rfl, by simp⟩
    | some b =>
      rw [hrec] at h
      dsimp only at h
      by_cases hle : agentLoad reg x.agent_id ≤ agentLoad reg b.agent_id
      · rw [if_pos hle] at h
        cases h
        exact ⟨[], rest, rfl, by simp⟩
      · rw [if_neg hle] at h
        cases h
        obtain ⟨l1, l2, heq, hlt⟩ := ih a hrec
        refine ⟨x :: l1, l2, by rw [heq, List.cons_append], ?_⟩
        intro c hc
        rcases List.mem_cons.mp hc with hcx | hcr
        · subst hcx; exact Nat.lt_of_not_le hle
        · exact hlt c hcr

theorem decompose_fold (pid : String) (now : Nat) :
    ∀ (specs : List (String × SubtaskSpec)) (reg : TaskReg) (parent : Task),
      aget reg pid = some parent → (∀ q ∈ specs, q.1 ≠ pid) →
      ∃ parent1,
        aget (specs.foldl (decompose_step pid now) reg) pid = some parent1 ∧
        parent1.subtasks = parent.subtasks ++ specs.map Prod.fst ∧
        parent1.status = parent.status ∧
        parent1.parent_task_id = parent.parent_task_id := by
  intro specs
  induction specs with
  | nil =>
    intro reg parent hp _
    exact ⟨parent, hp, by simp, rfl, rfl⟩
  | cons q rest ih =>
    intro reg parent hp hfresh
    have hq : pid ≠ q.1 := Ne.symm (hfresh q (List.mem_cons_self _ _))
    have hstep : aget (decompose_step pid now reg q) pid =
        some { parent with subtasks := parent.subtasks ++ [q.1] } := by
      unfold decompose_step
      rw [hp]
      dsimp only
      rw [aget_aset_ne reg q.1 pid _ hq, hp]
      dsimp only
      rw [aget_aset_self]
    obtain ⟨p1, h1, h2, h3, h4⟩ := ih (decompose_step pid now reg q)
      { parent with subtasks := parent.subtasks ++ [q.1] } hstep
      (fun r hr => hfresh r (List.mem_cons_of_mem _ hr))
    refine ⟨p1, h1, ?_, h3, h4⟩
    rw [h2]
    simp

theorem decompose_task_spec (reg : TaskReg) (pid : String)
    (specs : List (String × SubtaskSpec)) (now : Nat) (parent : Task)
    (hp : aget reg pid = some parent) (hfresh : ∀ q ∈ specs, q.1 ≠ pid) :
    ∃ parent1, aget (decompose_task reg pid specs now) pid = some parent1 ∧
      parent1.subtasks = parent.subtasks ++ specs.map Prod.fst ∧
      parent1.status =
        (if parent.status = "pending" then "decomposed" else parent.status) ∧
      parent1.parent_task_id = parent.parent_task_id := by
  obtain ⟨p1, h1, h2, h3, h4⟩ := decompose_fold pid now specs reg parent hp hfresh
  unfold decompose_task
  dsimp only
  rw [h1]
  dsimp only
  by_cases hst : p1.status = "pending"
  · rw [if_pos hst]
    refine ⟨{ p1 with status := "decomposed" }, aget_aset_self _ _ _, h2, ?_, h4⟩
    have hst' : parent.status = "pending" := by rw [← h3]; exact hst
    rw [if_pos hst']
  · rw [if_neg hst]
    refine ⟨p1, h1, h2, ?_, h4⟩
    have hst' : ¬parent.status = "pending" := by rw [← h3]; exact hst
    rw [if_neg hst']
    exact h3

/-- C3: the claim asserts terminal statuses are absorbing.  The code
refutes it: `update_task_status` validates nothing, so a later update
moves a `"completed"` task to `"pending"`. -/
theorem C3_counterexample :
    (aget c3reg "t").map Task.status = some "completed" ∧
    (aget (update_task_status 1 c3reg "t" "pending" Val.null 9).2 "t").map
      Task.status = some "pending" :=
  ⟨rfl, rfl⟩

/-- C3 (amended): `update_task_status` performs no transition validation:
for any existing task it unconditionally overwrites the status with the
requested value (shown here for non-terminal targets), so `"completed"`
and `"failed"` are not absorbing. -/
theorem C3_amended_status_overwrite (fuel : Nat) (reg : TaskReg)
    (tid st : String) (r : Val) (now : Nat) (task : Task)
    (ht : aget reg tid = some task) (h1 : st ≠ "completed")
    (h2 : st ≠ "failed") :
    update_task_status fuel reg tid st r now =
      (true, aset reg tid { task with status := st }) := by
  unfold update_task_status
  rw [ht]
  simp [h1, h2]

/-- Witness for C3: the completed fixture task is moved to `"running"`. -/
theorem C3_amended_status_overwrite_witness :
    update_task_status 1 c3reg "t" "running" Val.null 5 =
      (true, aset c3reg "t"
        { mkTask "t" "market_analysis" "completed" (Val.str "r") (some "w")
            none [] with status := "running" }) :=
  C3_amended_status_overwrite 1 c3reg "t" "running" Val.null 5
    (mkTask "t" "market_analysis" "completed" (Val.str "r") (some "w") none [])
    rfl (by decide) (by decide)

/-- C4: dependency gating parks unsatisfied tasks as `"waiting"`, but the
re-evaluation the claim requires is unreachable: delivering the
dependency's own completion as a `task_result` message makes
`process_message` call the undefined `_process_task_result`, raising
`AttributeError`, so the waiting task is never re-dispatched. -/
theorem C4_result_ingestion_unreachable :
    coordinator_assign_task c4st c4task "m1" =
      { c4st with
        active_tasks :=
          [("data_analysis_2",
            { task := c4task, status := "waiting", analysis_id := "m1",
              error := none, assigned_agent := none })] } ∧
    coordinator_process_message
      (coordinator_assign_task c4st c4task "m1") c4msg =
      Except.error missing_process_task_result :=
  ⟨rfl, rfl⟩

/-- C6 (amended): in the test3 coordinator a dependency-free task with no
matching available agent is immediately marked `"failed"` with the
source's literal error and no assignment message is sent; in the test1
manager, by contrast, `assign_task` with no registered agent of the routed
type merely returns `False` and leaves the registry (hence the task's
`"pending"` status) untouched. -/
theorem C6_amended_no_capable_worker :
    (∀ (st : C3State) (task : T3Task) (analysis_id : String),
      task.depends_on = none →
      find_suitable_agent st.available_agents task.required_expertise = none →
      coordinator_assign_task st task analysis_id =
        { st with
          active_tasks := aset st.active_tasks task.task_id
            { task := task, status := "failed", analysis_id := analysis_id,
              error := some "No suitable agent found",
              assigned_agent := none } }) ∧
    (∀ (areg : AgentReg) (reg : TaskReg) (tid : String) (now : Nat)
      (task : Task) (atype : String),
      aget reg tid = some task → task.status = "pending" →
      aget task_type_to_agent_type task.task_type = some atype →
      get_agents_by_type areg atype = [] →
      assign_task areg reg tid none now = (false, reg)) := by
  constructor
  · intro st task analysis_id hdep hfind
    unfold coordinator_assign_task
    rw [hdep]
    simp [hfind]
  · intro areg reg tid now task atype ht hpend hroute hempty
    unfold assign_task
    rw [ht]
    dsimp only
    rw [if_pos hpend, hroute]
    dsimp only
    rw [hempty]
    rfl

/-- Witness for C6: the fixture task fails in the test3 coordinator and
stays pending in the test1 manager. -/
theorem C6_amended_no_capable_worker_witness :
    coordinator_assign_task c6st c6task "a1" =
      { c6st with
        active_tasks :=
          [("k1",
            { task := c6task, status := "failed", analysis_id := "a1",
              error := some "No suitable agent found",
              assigned_agent := none })] } ∧
    assign_task ([] : AgentReg) c6reg "t" none 4 = (false, c6reg) :=
  ⟨C6_amended_no_capable_worker.1 c6st c6task "a1" rfl rfl,
   C6_amended_no_capable_worker.2 [] c6reg "t" 4
     (mkTask "t" "market_analysis" "pending" Val.null none none [])
     "market_trend_analysis_agent" rfl rfl rfl rfl⟩

/-- C6: the claim asserts the task immediately reaches `"failed"`; the
test1 `assign_task` refutes it, returning `False` with the task still
`"pending"`. -/
theorem C6_counterexample :
    (assign_task ([] : AgentReg) c6reg "t" none 4).1 = false ∧
    (aget (assign_task ([] : AgentReg) c6reg "t" none 4).2 "t").map
      Task.status = some "pending" ∧
    ("pending" : String) ≠ "failed" :=
  ⟨rfl, rfl, by decide⟩

/-- C9: `TaskRegistry()` and `AgentRegistry()` are process-wide
singletons: after the first construction every further construction
returns the same instance, so two `TaskManager`s built independently hold
the same registries and a task registered through the first is read back
through the second. -/
theorem C9_singleton_registries :
    (∀ p : PyProcess, taskRegistry_new (taskRegistry_new p).1 =
      ((taskRegistry_new p).1, (taskRegistry_new p).2)) ∧
    (∀ p : PyProcess, agentRegistry_new (agentRegistry_new p).1 =
      ((agentRegistry_new p).1, (agentRegistry_new p).2)) ∧
    ((taskManager_init (taskManager_init pyProcessInit).1).2.task_registry =
      (taskManager_init pyProcessInit).2.task_registry) ∧
    ((taskManager_init (taskManager_init pyProcessInit).1).2.agent_registry =
      (taskManager_init pyProcessInit).2.agent_registry) ∧
    (handle_get_task
      (handle_register_task (taskManager_init (taskManager_init pyProcessInit).1).1
        (taskManager_init pyProcessInit).2 c9t)
      (taskManager_init (taskManager_init pyProcessInit).1).2 "t9" = some c9t) := by
  refine ⟨?_, ?_, rfl, rfl, rfl⟩
  · intro p
    cases h : p.task_instance <;> simp [taskRegistry_new, h]
  · intro p
    cases h : p.agent_instance <;> simp [agentRegistry_new, h]

/-- C10: every `task_result` message makes
`CoordinatorAgent.process_message` call the undefined
`_process_task_result` and raise `AttributeError`, and with a truthy
`current_analysis_id` the `act` loop likewise calls the undefined
`_is_analysis_complete`; no result can ever be recorded. -/
theorem C10_missing_result_ingestion :
    (∀ (st : C3State) (message : T3Msg),
      message.message_type = "task_result" →
      coordinator_process_message st message =
        Except.error missing_process_task_result) ∧
    (∀ (st : C3State) (aid : String), st.current_analysis_id = some aid →
      aid ≠ "" →
      coordinator_act st = Except.error missing_is_analysis_complete) := by
  constructor
  · intro st message h
    unfold coordinator_process_message
    rw [h]
    rfl
  · intro st aid h hne
    unfold coordinator_act
    rw [h]
    dsimp only
    rw [if_neg hne]

/-- Witness for C10: concrete mid-analysis state and result message. -/
theorem C10_missing_result_ingestion_witness :
    coordinator_process_message c10st c10msg =
      Except.error missing_process_task_result ∧
    coordinator_act c10st = Except.error missing_is_analysis_complete :=
  ⟨C10_missing_result_ingestion.1 c10st c10msg rfl,
   C10_missing_result_ingestion.2 c10st "m1" rfl (by decide)⟩

/-- C1: the claim asserts that re-triggering the completion check after
aggregation is a no-op with no observable state change.  The code refutes
it: the re-triggered check re-stamps the parent's `completed_at` with the
new current time, so the registry state observably differs. -/
theorem C1_counterexample :
    (aget (check_parent_task_completion 1 c1reg "p" 1) "p").map Task.completed_at =
      some (some 1) ∧
    (aget (check_parent_task_completion 1
        (check_parent_task_completion 1 c1reg "p" 1) "p" 2) "p").map Task.completed_at =
      some (some 2) ∧
    check_parent_task_completion 1 (check_parent_task_completion 1 c1reg "p" 1) "p" 2 ≠
      check_parent_task_completion 1 c1reg "p" 1 :=
  ⟨rfl, rfl, fun h =>
    absurd (congrArg (fun r => (aget r "p").map Task.completed_at) h) (by decide)⟩

/-- C1 (amended): for a root parent whose children are all completed,
triggering the completion check marks the parent `"completed"` with the
aggregated type-to-result dict, leaves the children untouched, and with
pairwise-distinct child types the dict maps each child's type to that
child's result; while any child is incomplete the check changes nothing;
but re-triggering the check after aggregation is not a strict no-op: it
leaves status and result unchanged while re-stamping `completed_at` with
the new check time (the source reassigns `datetime.now()`). -/
theorem C1_amended_aggregation
    (reg : TaskReg) (pid : String) (parent : Task)
    (results : List (String × Val)) (t1 t2 fuel1 fuel2 : Nat)
    (hp : aget reg pid = some parent)
    (hne : parent.subtasks ≠ [])
    (hroot : parent.parent_task_id = none)
    (hself : pid ∉ parent.subtasks)
    (hres : collectResults reg [] parent.subtasks = some results) :
    aget (check_parent_task_completion (fuel1 + 1) reg pid t1) pid =
      some { parent with status := "completed", completed_at := some t1, result := Val.dict results } ∧
    (∀ id ∈ parent.subtasks,
      aget (check_parent_task_completion (fuel1 + 1) reg pid t1) id = aget reg id) ∧
    aget (check_parent_task_completion (fuel2 + 1)
        (check_parent_task_completion (fuel1 + 1) reg pid t1) pid t2) pid =
      some { parent with status := "completed", completed_at := some t2, result := Val.dict results } ∧
    (∀ (reg0 : TaskReg) (fuel t : Nat), aget reg0 pid = some parent →
      (∃ id ∈ parent.subtasks, subtaskIncomplete reg0 id) →
      check_parent_task_completion fuel reg0 pid t = reg0) ∧
    (∀ id ∈ parent.subtasks, ∀ sub : Task, aget reg id = some sub →
      (childTypes reg parent.subtasks).Nodup →
      aget results sub.task_type = some sub.result) := by
  have hstep1 := check_parent_success fuel1 reg pid t1 parent results hp hne hres hroot
  have hreg1p : aget (aset reg pid
      { parent with status := "completed", completed_at := some t1, result := Val.dict results }) pid =
      some { parent with status := "completed", completed_at := some t1, result := Val.dict results } :=
    aget_aset_self _ _ _
  have hres1 : collectResults (aset reg pid
      { parent with status := "completed", completed_at := some t1, result := Val.dict results })
      [] parent.subtasks = some results := by
    rw [collectResults_aset_ne reg pid _ parent.subtasks hself]
    exact hres
  have hstep2 := check_parent_success fuel2 _ pid t2
    { parent with status := "completed", completed_at := some t1, result := Val.dict results }
    results hreg1p hne hres1 hroot
  refine ⟨?_, ?_, ?_, ?_, ?_⟩
  · rw [hstep1]
    exact aget_aset_self _ _ _
  · intro id hid
    rw [hstep1]
    exact aget_aset_ne reg pid id _ (fun h => hself (h ▸ hid))
  · rw [hstep1, hstep2]
    exact aget_aset_self _ _ _
  · intro reg0 fuel t hp0 hex
    apply check_parent_no_change
    intro par hpar hsub
    rw [hp0] at hpar
    cases hpar
    exact collectResults_eq_none reg0 parent.subtasks hex []
  · intro id hid sub hsub hdist
    exact collectResults_maps reg parent.subtasks hdist id hid sub hsub [] results hres

/-- Witness for C1: aggregation of the two-child fixture, re-triggered at
a later time, with the per-type lookup evaluated. -/
theorem C1_amended_aggregation_witness :
    aget (check_parent_task_completion 1 c1reg "p" 1) "p" =
      some { c1p with status := "completed", completed_at := some 1, result := Val.dict c1results } ∧
    aget (check_parent_task_completion 1 (check_parent_task_completion 1 c1reg "p" 1) "p" 2) "p" =
      some { c1p with status := "completed", completed_at := some 2, result := Val.dict c1results } ∧
    aget c1results "ta" = some (Val.str "ra") := by
  have h := C1_amended_aggregation c1reg "p" c1p c1results 1 2 0 0 rfl
    (by decide) rfl (by decide) rfl
  exact ⟨h.1, h.2.2.1, h.2.2.2.2 "a" (by decide) c1a rfl (by decide)⟩

/-- C2: the claim asserts a failing child makes its decomposed parent
fail.  The code refutes it: the completion check aborts on the failed
child and never writes anything into the parent, which stays
`"decomposed"` while the child is `"failed"`. -/
theorem C2_counterexample :
    (aget (update_task_status 3 c2reg "b" "failed" (Val.str "boom") 7).2 "p").map
      Task.status = some "decomposed" ∧
    (aget (update_task_status 3 c2reg "b" "failed" (Val.str "boom") 7).2 "b").map
      Task.status = some "failed" :=
  ⟨rfl, rfl⟩

/-- C2 (amended): when a child of a decomposed parent fails, the child is
marked `"failed"` with the error as its result, and the parent task is
left completely unchanged — the completion check returns the registry as
is, so failure never propagates to the parent. -/
theorem C2_amended_failure_not_propagated
    (fuel : Nat) (reg : TaskReg) (cid pid : String) (err : Val) (now : Nat)
    (child parent : Task)
    (hc : aget reg cid = some child) (hcp : child.parent_task_id = some pid)
    (hp : aget reg pid = some parent) (hmem : cid ∈ parent.subtasks)
    (hne : cid ≠ pid) :
    update_task_status fuel reg cid "failed" err now =
      (true, aset reg cid { child with status := "failed", completed_at := some now, result := err }) ∧
    aget (update_task_status fuel reg cid "failed" err now).2 pid = some parent := by
  have hget1 : aget (aset reg cid
      { child with status := "failed", completed_at := some now, result := err }) pid = some parent := by
    rw [aget_aset_ne reg cid pid _ (Ne.symm hne)]
    exact hp
  have hnochange : check_parent_task_completion fuel
      (aset reg cid { child with status := "failed", completed_at := some now, result := err })
      pid now =
      aset reg cid { child with status := "failed", completed_at := some now, result := err } := by
    apply check_parent_no_change
    intro par hpar hsub
    rw [hget1] at hpar
    cases hpar
    apply collectResults_eq_none
    refine ⟨cid, hmem, ?_⟩
    unfold subtaskIncomplete
    rw [aget_aset_self]
    dsimp only
    decide
  have hR :
      ({ child with
         status := "failed"
         completed_at := some now
         result := err
         parent_task_id := some pid } : Task) =
      { child with status := "failed", completed_at := some now, result := err } := by
    rw [← hcp]
  have hmain : update_task_status fuel reg cid "failed" err now =
      (true, aset reg cid { child with status := "failed", completed_at := some now, result := err }) := by
    unfold update_task_status
    rw [hc]
    dsimp only
    rw [if_pos (Or.inr rfl), hcp]
    dsimp only
    rw [hR, hnochange]
  refine ⟨hmain, ?_⟩
  rw [hmain]
  exact hget1

/-- Witness for C2: the fixture child `b` fails; the parent record is the
unchanged fixture parent. -/
theorem C2_amended_failure_not_propagated_witness :
    update_task_status 3 c2reg "b" "failed" (Val.str "err") 8 =
      (true, aset c2reg "b"
        { mkTask "b" "tb" "assigned" Val.null (some "w1") (some "p") [] with
          status := "failed"
          completed_at := some 8
          result := Val.str "err" }) ∧
    aget (update_task_status 3 c2reg "b" "failed" (Val.str "err") 8).2 "p" =
      some (mkTask "p" "comprehensive_analysis" "decomposed" Val.null none none ["a", "b"]) :=
  C2_amended_failure_not_propagated 3 c2reg "b" "p" (Val.str "err") 8
    (mkTask "b" "tb" "assigned" Val.null (some "w1") (some "p") [])
    (mkTask "p" "comprehensive_analysis" "decomposed" Val.null none none ["a", "b"])
    rfl rfl rfl (by decide) (by decide)

/-- C5: the claim asserts the chosen worker minimizes the count of tasks
in the assigned-or-running states.  The code refutes it: its load metric
counts terminal tasks too, so with `agent1` holding two completed tasks
(zero active) and `agent2` one active task, the code picks `agent2`. -/
theorem C5_counterexample :
    (aget (assign_task c5areg c5reg "t4" none 9).2 "t4").map Task.assigned_agent =
      some (some "agent2") ∧
    specActiveLoad c5reg "agent1" = 0 ∧
    specActiveLoad c5reg "agent2" = 1 :=
  ⟨rfl, rfl, rfl⟩

/-- C5 (amended): the automatic choice is the first registered agent of
the routed type minimizing the total number of registry tasks assigned to
it — counting every status, terminal ones included — with ties broken by
registration order. -/
theorem C5_amended_least_total_load
    (areg : AgentReg) (reg : TaskReg) (tid : String) (now : Nat)
    (task : Task) (atype : String) (a ag : AgentRec)
    (ht : aget reg tid = some task) (hpend : task.status = "pending")
    (hroute : aget task_type_to_agent_type task.task_type = some atype)
    (hmin : minByLoad reg (get_agents_by_type areg atype) = some a)
    (hreg : aget areg a.agent_id = some ag) :
    assign_task areg reg tid none now =
      (true, aset reg tid
        { task with assigned_agent := some a.agent_id, status := "assigned", started_at := some now }) ∧
    a ∈ get_agents_by_type areg atype ∧
    (∀ b ∈ get_agents_by_type areg atype,
      agentLoad reg a.agent_id ≤ agentLoad reg b.agent_id) ∧
    (∃ l1 l2, get_agents_by_type areg atype = l1 ++ a :: l2 ∧
      ∀ b ∈ l1, agentLoad reg a.agent_id < agentLoad reg b.agent_id) := by
  refine ⟨?_, (minByLoad_mem_le reg _ a hmin).1, (minByLoad_mem_le reg _ a hmin).2,
    minByLoad_first reg _ a hmin⟩
  unfold assign_task
  rw [ht]
  dsimp only
  rw [if_pos hpend, hroute]
  dsimp only
  rw [hmin]
  dsimp only
  rw [hreg]

/-- Witness for C5: two capable workers with three and zero assigned
tasks; the zero-load one is chosen. -/
theorem C5_amended_least_total_load_witness :
    assign_task c5areg c5wreg "t4" none 3 =
      (true, aset c5wreg "t4"
        { mkTask "t4" "market_analysis" "pending" Val.null none none [] with
          assigned_agent := some "agent2"
          status := "assigned"
          started_at := some 3 }) ∧
    agentLoad c5wreg "agent1" = 3 ∧
    agentLoad c5wreg "agent2" = 0 :=
  ⟨(C5_amended_least_total_load c5areg c5wreg "t4" 3
      (mkTask "t4" "market_analysis" "pending" Val.null none none [])
      "market_trend_analysis_agent" c5agent2 c5agent2 rfl rfl rfl rfl rfl).1,
   rfl, rfl⟩

/-- C7: the claim asserts decomposition runs at most once per task.  The
code refutes it: a second `decompose_task` call on the same parent
appends a second batch of child ids. -/
theorem C7_counterexample :
    (aget (decompose_task c7reg "p" [("s1", c7spec)] 1) "p").map Task.subtasks =
      some ["s1"] ∧
    (aget (decompose_task (decompose_task c7reg "p" [("s1", c7spec)] 1) "p"
      [("s2", c7spec)] 2) "p").map Task.subtasks = some ["s1", "s2"] :=
  ⟨rfl, rfl⟩

/-- C7 (amended): the child-id list is append-only, but there is no
at-most-once guard: every `decompose_task` call appends the full batch of
new child ids, so re-invoking decomposition creates an additional
duplicate subtask tree. -/
theorem C7_amended_decompose_appends
    (reg : TaskReg) (pid : String)
    (specs1 specs2 : List (String × SubtaskSpec)) (now1 now2 : Nat)
    (parent : Task) (hp : aget reg pid = some parent)
    (hfresh1 : ∀ q ∈ specs1, q.1 ≠ pid)
    (hfresh2 : ∀ q ∈ specs2, q.1 ≠ pid) :
    ∃ p2,
      aget (decompose_task (decompose_task reg pid specs1 now1) pid specs2 now2) pid = some p2 ∧
      p2.subtasks = parent.subtasks ++ specs1.map Prod.fst ++ specs2.map Prod.fst := by
  obtain ⟨p1, h1, h2, h3, h4⟩ := decompose_task_spec reg pid specs1 now1 parent hp hfresh1
  obtain ⟨p2, g1, g2, g3, g4⟩ := decompose_task_spec _ pid specs2 now2 p1 h1 hfresh2
  exact ⟨p2, g1, by rw [g2, h2]⟩

/-- Witness for C7: the fixture parent decomposed twice carries both
generations of child ids. -/
theorem C7_amended_decompose_appends_witness :
    (aget (decompose_task (decompose_task c7reg "p" [("s1", c7spec)] 1) "p"
      [("s2", c7spec)] 2) "p").map Task.subtasks =
      some (([] : List String) ++ ["s1"] ++ ["s2"]) := by
  obtain ⟨p2, g1, g2⟩ := C7_amended_decompose_appends c7reg "p"
    [("s1", c7spec)] [("s2", c7spec)] 1 2
    (mkTask "p" "comprehensive_analysis" "pending" Val.null none none [])
    rfl (by decide) (by decide)
  rw [g1]
  simp [g2, mkTask]

/-- C8: the claim asserts a tree-completed or tree-failed notification is
sent to the requester when the root terminates, in particular by
aggregation.  The code refutes it: processing the last child's result
completes the decomposed root yet returns no message at all, because the
child (whose id the message carries) has a parent. -/
theorem C8_counterexample :
    (aget (coordinator_handle_task_result 3 "coordinator" c8reg c8msg 9).1 "r").map
      Task.status = some "completed" ∧
    (coordinator_handle_task_result 3 "coordinator" c8reg c8msg 9).2 = none :=
  ⟨rfl, rfl⟩

/-- C8 (amended): the `task_result` handler updates the registry through
`update_task_status` and notifies only for a parentless reported task:
when the updated task has a parent no message is returned at all (so a
decomposed root, terminal by aggregation during a child's result, never
triggers any notification), and when it has no parent a single
`task_completed` message echoing the reported status and result is sent
to the sender of the result message (the reporting worker), not to the
original requester. -/
theorem C8_amended_notification
    (fuel : Nat) (self_id : String) (reg : TaskReg) (message : Msg)
    (now : Nat) (c : List (String × Val)) (tid : String) (task : Task)
    (hc : message.content = Val.dict c)
    (hid : aget c "task_id" = some (Val.str tid))
    (ht : aget (update_task_status fuel reg tid (msgStatus c) (msgResult c) now).2 tid =
      some task) :
    (coordinator_handle_task_result fuel self_id reg message now).1 =
      (update_task_status fuel reg tid (msgStatus c) (msgResult c) now).2 ∧
    (task.parent_task_id.isSome →
      (coordinator_handle_task_result fuel self_id reg message now).2 = none) ∧
    (task.parent_task_id = none →
      (coordinator_handle_task_result fuel self_id reg message now).2 =
        some
          { sender := self_id
            receiver := message.sender
            content := Val.dict
              [("task_id", Val.str tid), ("status", Val.str (msgStatus c)),
               ("result", msgResult c)]
            msg_type := "task_completed" }) := by
  have hbody : ∀ out : TaskReg × Option Msg,
      out = coordinator_handle_task_result fuel self_id reg message now →
      out = (match task.parent_task_id with
        | some _ => ((update_task_status fuel reg tid (msgStatus c) (msgResult c) now).2, none)
        | none => ((update_task_status fuel reg tid (msgStatus c) (msgResult c) now).2,
            some
              { sender := self_id
                receiver := message.sender
                content := Val.dict
                  [("task_id", Val.str tid), ("status", Val.str (msgStatus c)),
                   ("result", msgResult c)]
                msg_type := "task_completed" })) := by
    intro out hout
    rw [hout]
    unfold coordinator_handle_task_result
    rw [hc]
    dsimp only
    rw [hid]
    dsimp only
    rw [ht]
  have heq := hbody _ rfl
  cases hpt : task.parent_task_id with
  | none =>
    rw [hpt] at heq
    dsimp only at heq
    rw [heq]
    refine ⟨rfl, ?_, fun _ => rfl⟩
    intro hps
    simp at hps
  | some gp =>
    rw [hpt] at heq
    dsimp only at heq
    rw [heq]
    refine ⟨rfl, fun _ => rfl, ?_⟩
    intro hn
    simp at hn

/-- Witness for C8: a parentless leaf task's result produces the single
`task_completed` echo addressed to the reporting worker. -/
theorem C8_amended_notification_witness :
    (coordinator_handle_task_result 2 "coordinator" c8wreg c8wmsg 5).2 =
      some
        { sender := "coordinator"
          receiver := "w"
          content := Val.dict
            [("task_id", Val.str "t"), ("status", Val.str "completed"),
             ("result", Val.str "res")]
          msg_type := "task_completed" } :=
  (C8_amended_notification 2 "coordinator" c8wreg c8wmsg 5
    [("task_id", Val.str "t"), ("status", Val.str "completed"),
     ("result", Val.str "res")] "t"
    { mkTask "t" "market_analysis" "assigned" Val.null (some "w") none [] with
      status := "completed"
      completed_at := some 5
      result := Val.str "res" }
    rfl rfl rfl).2.2 rfl

end AgentsDemo
